import Mathlib

/-!
# Shallow embedding of the NUWorks co-op grader

This file embeds the two Python modules of the repository
(`main.py` and `fetchOpenAi.py`) as executable Lean definitions and
proves properties of that embedding.

Modelling conventions:

* Environment variables (`os.getenv`) are `Option String`; Python string
  truthiness (`if not api_key`) is `keyPresent` (absent or empty is falsy).
* The two external collaborators are nondeterministic inputs:
  - the HTTP transport of `JobScraper.fetch_jobs` is a `Transport` value
    (connection failure, or a response with a status code and a body);
  - the language-model call inside `JobScorer.score_job` is a
    `CallOutcome` (a reply text, or an exception raised by the call).
* Python exceptions are `Except` values; a caught exception selects the
  handler's branch of the embedded function.
* Response bodies are modelled as `Body`: unparseable JSON (`malformed`),
  well-formed JSON that is not an object (`nonObject`), or a JSON object
  (`obj`).  A JSON object is a `PyDict`, an insertion-ordered association
  list; its values are restricted to the one shape the program reads, a
  JSON array of job records (the value of the `models` key).
* `json.dump` whole-file writes of `goodJobs.json` are recorded as a list
  of snapshots, each snapshot being the full list serialized at that
  write; the `JSON` wrapper object with the single `jobs` key is implied.
* `str.strip` is `pyStrip` (drop leading and trailing whitespace from
  the character list) and `str.isdigit` is `pyIsDigit` (nonempty and
  all ASCII digits); all strings the program compares are ASCII, where
  these agree with Python.  String operations are written over
  `String.data` so that every definition evaluates inside the kernel.
* Logging is modelled by a per-job `JobEvent` trace mirroring the four
  log branches of the processing loop.
-/

/-- Process environment: the two variables the program reads
(`OPENAI_API_KEY` in `fetchOpenAi.py`, `NUWORKS_COOKIE` in `main.py`). -/
structure Env where
  openai_api_key : Option String
  nuworks_cookie : Option String
deriving DecidableEq

/-- Python truthiness of an environment lookup: `os.getenv` returns
`None` when unset, and `if not value` also treats `""` as absent. -/
def keyPresent : Option String → Bool
  | none => false
  | some s => !s.data.isEmpty

/-- One entry of the upstream `models` array.  The program reads the
four keys `job_title`, `name`, `job_desc`, `job_id` with `dict.get`
defaults; a `none` field models an absent key. -/
structure JobRecord where
  job_title : Option String
  name : Option String
  job_desc : Option String
  job_id : Option String
deriving DecidableEq

/-- The `job_data` dict appended to `good_jobs` in
`JobScraper.process_jobs` (keys `jobTitle`, `companyName`, `score`,
`url`, in that order). -/
structure ScoredJob where
  jobTitle : String
  companyName : String
  score : String
  url : String
deriving DecidableEq

/-- A parsed JSON object, as an insertion-ordered association list.
Values are restricted to the only shape the program consumes: the
`models` key holding an array of job records. -/
abbrev PyDict := List (String × List JobRecord)

/-- A response body as `response.json()` sees it. -/
inductive Body
  | malformed
  | nonObject
  | obj (d : PyDict)
deriving DecidableEq

/-- The outcome of the single HTTP GET in `JobScraper.fetch_jobs`:
either `requests.get` raises a `RequestException` (connection failure,
timeout, too many redirects), or a response arrives with a status code
and a body. -/
inductive Transport
  | connFail
  | response (status : Nat) (body : Body)
deriving DecidableEq

/-- The outcome of the chat-completion call in `JobScorer.score_job`:
either a reply whose message content is `text`, or an exception raised
by the underlying call (network, auth, rate limit, malformed
response). -/
inductive CallOutcome
  | reply (text : String)
  | exc
deriving DecidableEq

/-- Python exceptions the embedding distinguishes. -/
inductive PyExc
  | valueError
deriving DecidableEq

/-- The four log branches of the body of the loop in
`JobScraper.process_jobs`: job accepted, numeric score below threshold,
non-numeric score, exception caught by the per-job handler. -/
inductive JobEvent
  | added (score_str : String)
  | skipped (score_str : String)
  | invalid (score_str : String)
  | errored
deriving DecidableEq

/-- Python `str.strip` with no argument: remove leading and trailing
whitespace. -/
def pyStrip (s : String) : String :=
  String.mk (((s.data.dropWhile Char.isWhitespace).reverse.dropWhile
    Char.isWhitespace).reverse)

/-- Python `str.isdigit` for ASCII strings: nonempty and all digits. -/
def pyIsDigit (s : String) : Bool :=
  !s.data.isEmpty && s.data.all Char.isDigit

/-- Value of an ASCII digit character. -/
def digitVal (c : Char) : Nat := c.toNat - 48

/-- Python `int(s)` for a digit string: decimal interpretation. -/
def pyInt (s : String) : Nat :=
  s.data.foldl (fun acc c => 10 * acc + digitVal c) 0

/-! ## fetchOpenAi.py -/

/-- Embeds `JobScorer.__init__`: `raise ValueError(...)` when `OPENAI_API_KEY`
is absent (or empty); otherwise the client and the two fixed prompt
strings are built and construction succeeds. -/
def jobScorerInit (env : Env) : Except PyExc Unit :=
  if keyPresent env.openai_api_key then .ok () else .error .valueError

/-- Embeds `JobScorer.score_job`: on a reply, returns
`response.choices[0].message.content.strip()`; any exception raised by
the underlying call is caught, logged, and converted to the string
`"0"`. -/
def score_job (oc : CallOutcome) : String :=
  match oc with
  | .reply text => pyStrip text
  | .exc => "0"

/-- Embeds `fetchOpenAi.getJobScore`: lazily constructs the global `JobScorer`
(the construction error, if any, propagates to the caller) and then
delegates to `score_job`.  The lazily-initialized client behaves
identically on every call for a fixed environment, so the global is not
threaded as state. -/
def getJobScore (env : Env) (oc : CallOutcome) : Except PyExc String :=
  match jobScorerInit env with
  | .error e => .error e
  | .ok _ => .ok (score_job oc)

/-! ## main.py: JobScraper -/

/-- The constant `self.base_url`. -/
def base_url : String := "https://northeastern-csm.symplicity.com"

/-- The constant `self.job_url_template`. -/
def job_url_template : String := base_url ++ "/students/app/jobs/search"

/-- The dict `self.params` of `JobScraper.__init__`, in insertion order, with the
values rendered exactly as Python's f-string renders them in
`generate_job_url` (ints in decimal, `False` as `"False"`). -/
def fetchParams : List (String × String) :=
  [("perPage", "100"),
   ("page", "0"),
   ("sort", "!postdate"),
   ("ocr", "f"),
   ("job_type", "5"),
   ("industry", "112,147,24,109,83,116,141,142,143,89,105,104,97"),
   ("postdate", "7"),
   ("json_mode", "read_only"),
   ("enable_translation", "False")]

/-- The dict `url_params` of `JobScraper.generate_job_url`, in insertion order. -/
def url_params (job_id : String) : List (String × String) :=
  [("perPage", "100"),
   ("page", "1"),
   ("sort", "!postdate"),
   ("ocr", "f"),
   ("job_type", "5"),
   ("industry", "112,147,24,109,83,116,141,142,143,89,105,104,97"),
   ("postdate", "7"),
   ("currentJobId", job_id)]

/-- Embeds `JobScraper.generate_job_url`: joins `k=v` pairs with `&` and
appends them to the template after `?`. -/
def generate_job_url (job_id : String) : String :=
  job_url_template ++ "?" ++
    String.intercalate "&" ((url_params job_id).map (fun kv => kv.1 ++ "=" ++ kv.2))

/-- Embeds `JobScraper.fetch_jobs`.  `response.raise_for_status()` raises
`requests.HTTPError` exactly for status codes 400-599 (the library's
documented contract), which the `RequestException` handler catches and
converts to `None`; a body that is not valid JSON raises
`JSONDecodeError`, also converted to `None`.  A well-formed body that is
not a JSON object makes the logging line `jobs_data.get('models', [])`
raise `AttributeError`, which no handler in `fetch_jobs` catches: that
exception escapes (`Except.error`). -/
def fetch_jobs (t : Transport) : Except PyExc (Option PyDict) :=
  match t with
  | .connFail => .ok none
  | .response status body =>
    if 400 ≤ status ∧ status < 600 then .ok none
    else
      match body with
      | .malformed => .ok none
      | .nonObject => .error .valueError
      | .obj d => .ok (some d)

/-- The membership test `'models' in jobs_data`. -/
def hasModels (d : PyDict) : Bool :=
  d.any (fun kv => kv.1 == "models")

/-- The lookup `jobs_data['models']` (first binding of the key; a Python dict has
at most one). -/
def getModels (d : PyDict) : List JobRecord :=
  ((d.find? (fun kv => kv.1 == "models")).map Prod.snd).getD []

/-- The `job_data` dict built for an accepted job, with the
`dict.get` placeholder defaults of `process_jobs`. -/
def mkScoredJob (job : JobRecord) (score_str : String) : ScoredJob :=
  { jobTitle := job.job_title.getD "Unknown Title"
    companyName := job.name.getD "Unknown Company"
    score := score_str
    url := generate_job_url (job.job_id.getD "") }

/-- One iteration of the loop in `JobScraper.process_jobs` (the body of
the `try`).  Returns the updated `good_jobs` list, the contents written
to `goodJobs.json` by this iteration (if any), and the log event.
The per-job `except Exception` catches anything `getJobScore` raises
(in particular the `JobScorer` construction error) and continues. -/
def processJob (env : Env) (oc : CallOutcome) (job : JobRecord) (min_score : Nat)
    (good_jobs : List ScoredJob) :
    List ScoredJob × Option (List ScoredJob) × JobEvent :=
  match getJobScore env oc with
  | .error _ => (good_jobs, none, .errored)
  | .ok raw =>
    let score_str := if raw.data.isEmpty then "0" else pyStrip raw
    if pyIsDigit score_str then
      if min_score ≤ pyInt score_str then
        let updated := good_jobs ++ [mkScoredJob job score_str]
        (updated, some updated, .added score_str)
      else
        (good_jobs, none, .skipped score_str)
    else
      (good_jobs, none, .invalid score_str)

/-- The loop of `JobScraper.process_jobs` over the job records paired
with the outcome of each job's scoring call, accumulating `good_jobs`,
the successive `goodJobs.json` snapshots, and the event trace. -/
def runJobs (env : Env) (min_score : Nat) :
    List (JobRecord × CallOutcome) → List ScoredJob →
    List ScoredJob × List (List ScoredJob) × List JobEvent
  | [], good_jobs => (good_jobs, [], [])
  | (job, oc) :: rest, good_jobs =>
    let step := processJob env oc job min_score good_jobs
    let r := runJobs env min_score rest step.1
    (r.1, step.2.1.toList ++ r.2.1, step.2.2 :: r.2.2)

/-- Pairs each job record, in fetch order, with the outcome of the
scoring call the run makes for it (`oracle i` for the `i`-th job). -/
def pairOutcomes (oracle : Nat → CallOutcome) (jobs : List JobRecord) :
    List (JobRecord × CallOutcome) :=
  jobs.enum.map (fun p => (p.2, oracle p.1))

/-- Embeds `JobScraper.process_jobs`: the guard
`if not jobs_data or 'models' not in jobs_data: return []` followed by
the scoring loop started with an empty `good_jobs`. -/
def process_jobs (env : Env) (oracle : Nat → CallOutcome) (jobs_data : Option PyDict)
    (min_score : Nat) :
    List ScoredJob × List (List ScoredJob) × List JobEvent :=
  match jobs_data with
  | none => ([], [], [])
  | some d =>
    if d.isEmpty || !hasModels d then ([], [], [])
    else runJobs env min_score (pairOutcomes oracle (getModels d)) []

/-! ## main.py: driver -/

/-- The observable result of one process run: the exit status, the
contents written to `response.json` (if reached), every whole-file
write to `goodJobs.json` in order (the incremental writes of
`process_jobs` followed by the final `save_good_jobs` write), the final
accepted list, and the per-job event trace. -/
structure RunResult where
  exitCode : Nat
  rawResponseFile : Option PyDict
  goodJobsWrites : List (List ScoredJob)
  finalGoodJobs : List ScoredJob
  events : List JobEvent
deriving DecidableEq

/-- Embeds `main()` (named `mainRun` because Lean reserves the name `main`).
`JobScraper.__init__` raises `ValueError` when
`NUWORKS_COOKIE` is absent, caught by the outer handler (exit 1); an
exception escaping `fetch_jobs` is likewise caught (exit 1);
`if not jobs_data: sys.exit(1)` treats both `None` and a falsy (empty)
parsed dict as failure (`SystemExit` is not an `Exception`, so the exit
status is 1); otherwise the raw response is saved, jobs are processed
with `min_score=50`, the good jobs are saved once more, and the process
exits 0. -/
def mainRun (env : Env) (t : Transport) (oracle : Nat → CallOutcome) : RunResult :=
  if keyPresent env.nuworks_cookie then
    match fetch_jobs t with
    | .error _ => ⟨1, none, [], [], []⟩
    | .ok none => ⟨1, none, [], [], []⟩
    | .ok (some jobs_data) =>
      if jobs_data.isEmpty then ⟨1, none, [], [], []⟩
      else
        let r := process_jobs env oracle (some jobs_data) 50
        ⟨0, some jobs_data, r.2.1 ++ [r.1], r.1, r.2.2⟩
  else ⟨1, none, [], [], []⟩

/-! ## Concrete fixtures used by witnesses and counterexamples -/

/-- An environment with both variables set. -/
def envOK : Env := { openai_api_key := some "sk-test", nuworks_cookie := some "cookie" }

/-- An environment with the language-model credential absent. -/
def envNoKey : Env := { openai_api_key := none, nuworks_cookie := some "cookie" }

/-- A fully populated job record. -/
def jobA : JobRecord :=
  { job_title := some "Software Co-op", name := some "Acme", job_desc := some "desc",
    job_id := some "12345" }

/-- A second job record. -/
def jobB : JobRecord :=
  { job_title := some "Data Co-op", name := some "Globex", job_desc := some "desc2",
    job_id := some "67890" }

/-- A parsed response holding one job under `models`. -/
def oneJob : PyDict := [("models", [jobA])]

/-- A parsed response holding two jobs under `models`. -/
def twoJobs : PyDict := [("models", [jobA, jobB])]

/-! ## Helper lemmas -/

lemma pyIsDigit_ne_empty {s : String} (h : pyIsDigit s = true) :
    s.data.isEmpty = false := by
  unfold pyIsDigit at h
  cases hs : s.data.isEmpty with
  | false => rfl
  | true => rw [hs] at h; simp at h

lemma take_append_self {α : Type} (l₁ l₂ : List α) : (l₁ ++ l₂).take l₁.length = l₁ := by
  induction l₁ with
  | nil => rfl
  | cons a t ih => simp [ih]

lemma take_take_le {α : Type} (l : List α) :
    ∀ n m : Nat, n ≤ m → (l.take m).take n = l.take n := by
  induction l with
  | nil => intro n m _; simp
  | cons a t ih =>
    intro n m h
    cases n with
    | zero => simp
    | succ n' =>
      cases m with
      | zero => omega
      | succ m' => simp [ih n' m' (by omega)]

lemma length_take_of_le {α : Type} (l : List α) :
    ∀ n : Nat, n ≤ l.length → (l.take n).length = n := by
  induction l with
  | nil => intro n h; simp at h; simp [h]
  | cons a t ih =>
    intro n h
    cases n with
    | zero => simp
    | succ n' => simpa using ih n' (by simpa using h)

/-- Evaluation of one loop iteration on a reply that is already trimmed
and nonempty. -/
lemma processJob_reply_eval (env : Env) (job : JobRecord) (gj : List ScoredJob)
    (m : Nat) (s : String) (hkey : keyPresent env.openai_api_key = true)
    (htrim : pyStrip s = s) (hne : s.data.isEmpty = false) :
    processJob env (.reply s) job m gj =
      if pyIsDigit s = true then
        if m ≤ pyInt s then
          (gj ++ [mkScoredJob job s], some (gj ++ [mkScoredJob job s]), .added s)
        else (gj, none, .skipped s)
      else (gj, none, .invalid s) := by
  have h1 : getJobScore env (.reply s) = .ok s := by
    unfold getJobScore jobScorerInit score_job
    rw [hkey]
    simp [htrim]
  unfold processJob
  rw [h1]
  simp only [hne, Bool.false_eq_true, if_false, htrim]

/-- Each loop iteration either leaves `good_jobs` and the file alone, or
appends exactly one job and writes the extended list. -/
lemma processJob_shape (env : Env) (oc : CallOutcome) (job : JobRecord) (m : Nat)
    (gj : List ScoredJob) :
    ((processJob env oc job m gj).1 = gj ∧ (processJob env oc job m gj).2.1 = none) ∨
    (∃ jd, (processJob env oc job m gj).1 = gj ++ [jd] ∧
           (processJob env oc job m gj).2.1 = some (gj ++ [jd])) := by
  unfold processJob
  cases getJobScore env oc with
  | error e => exact Or.inl ⟨rfl, rfl⟩
  | ok raw =>
    dsimp only []
    by_cases h1 : pyIsDigit (if raw.data.isEmpty then "0" else pyStrip raw) = true
    · by_cases h2 : m ≤ pyInt (if raw.data.isEmpty then "0" else pyStrip raw)
      · exact Or.inr ⟨mkScoredJob job (if raw.data.isEmpty then "0" else pyStrip raw),
          by rw [if_pos h1, if_pos h2], by rw [if_pos h1, if_pos h2]⟩
      · exact Or.inl ⟨by rw [if_pos h1, if_neg h2], by rw [if_pos h1, if_neg h2]⟩
    · exact Or.inl ⟨by rw [if_neg h1], by rw [if_neg h1]⟩

/-- The loop invariant behind the snapshot property: started from
`gj0`, the loop only extends the accepted list, writes once per
acceptance, and the `i`-th write is the first `gj0.length + i + 1`
accepted jobs of the final list. -/
lemma runJobs_inv (env : Env) (m : Nat) (pairs : List (JobRecord × CallOutcome)) :
    ∀ gj0 : List ScoredJob,
      (runJobs env m pairs gj0).1.take gj0.length = gj0 ∧
      (runJobs env m pairs gj0).1.length =
        gj0.length + (runJobs env m pairs gj0).2.1.length ∧
      ∀ i, i < (runJobs env m pairs gj0).2.1.length →
        (runJobs env m pairs gj0).2.1.getD i [] =
          (runJobs env m pairs gj0).1.take (gj0.length + i + 1) := by
  induction pairs with
  | nil =>
    intro gj0
    refine ⟨List.take_length gj0, by simp [runJobs], ?_⟩
    intro i hi
    simp [runJobs] at hi
  | cons p rest ih =>
    intro gj0
    obtain ⟨job, oc⟩ := p
    rcases processJob_shape env oc job m gj0 with ⟨h1, h2⟩ | ⟨jd, h1, h2⟩
    · simp only [runJobs, h1, h2, Option.toList_none, List.nil_append]
      exact ih gj0
    · simp only [runJobs, h1, h2, Option.toList_some, List.singleton_append]
      obtain ⟨ihp, ihl, ihw⟩ := ih (gj0 ++ [jd])
      have hlen : (gj0 ++ [jd]).length = gj0.length + 1 := by simp
      rw [hlen] at ihp ihl ihw
      refine ⟨?_, ?_, ?_⟩
      · have := take_take_le (runJobs env m rest (gj0 ++ [jd])).1 gj0.length
          (gj0.length + 1) (by omega)
        rw [← this, ihp]
        simp
      · simp only [List.length_cons]
        omega
      · intro i hi
        cases i with
        | zero =>
          simp only [List.getD_cons_zero]
          rw [Nat.add_zero]
          exact ihp.symm
        | succ j =>
          simp only [List.getD_cons_succ]
          have hj : j < (runJobs env m rest (gj0 ++ [jd])).2.1.length := by
            simp only [List.length_cons] at hi
            omega
          have harith : gj0.length + 1 + j + 1 = gj0.length + (j + 1) + 1 := by omega
          rw [ihw j hj, harith]

/-- Unfolding one loop step when the iteration's result is known. -/
lemma runJobs_cons_eq (env : Env) (m : Nat) (job : JobRecord) (oc : CallOutcome)
    (rest : List (JobRecord × CallOutcome)) (gj : List ScoredJob)
    (w : Option (List ScoredJob)) (ev : JobEvent) (gj1 : List ScoredJob)
    (h : processJob env oc job m gj = (gj1, w, ev)) :
    runJobs env m ((job, oc) :: rest) gj =
      ((runJobs env m rest gj1).1,
       w.toList ++ (runJobs env m rest gj1).2.1,
       ev :: (runJobs env m rest gj1).2.2) := by
  simp only [runJobs, h]

/-- With the credential absent, every iteration hits the per-job
exception handler: nothing is accepted, nothing is written, and the
event is `errored`. -/
lemma processJob_noKey (env : Env) (oc : CallOutcome) (job : JobRecord) (m : Nat)
    (gj : List ScoredJob) (hk : keyPresent env.openai_api_key = false) :
    processJob env oc job m gj = (gj, none, .errored) := by
  unfold processJob getJobScore jobScorerInit
  rw [hk]
  rfl

/-- With the credential absent, the whole loop accepts nothing, writes
nothing, and logs one `errored` event per job. -/
lemma runJobs_noKey (env : Env) (m : Nat) (hk : keyPresent env.openai_api_key = false) :
    ∀ (pairs : List (JobRecord × CallOutcome)) (gj : List ScoredJob),
      runJobs env m pairs gj = (gj, [], pairs.map (fun _ => .errored)) := by
  intro pairs
  induction pairs with
  | nil => intro gj; rfl
  | cons p rest ih =>
    intro gj
    obtain ⟨job, oc⟩ := p
    rw [runJobs_cons_eq env m job oc rest gj none .errored gj
      (processJob_noKey env oc job m gj hk), ih gj]
    rfl

/-- With the credential absent, `process_jobs` accepts nothing, writes
nothing, and every event is `errored`. -/
lemma process_jobs_noKey (env : Env) (oracle : Nat → CallOutcome)
    (jobs_data : Option PyDict) (m : Nat)
    (hk : keyPresent env.openai_api_key = false) :
    (process_jobs env oracle jobs_data m).1 = [] ∧
    (process_jobs env oracle jobs_data m).2.1 = [] ∧
    ∀ ev ∈ (process_jobs env oracle jobs_data m).2.2, ev = .errored := by
  match jobs_data with
  | none => exact ⟨rfl, rfl, by intro ev h; simp [process_jobs] at h⟩
  | some d =>
    simp only [process_jobs]
    by_cases hg : (d.isEmpty || !hasModels d) = true
    · rw [if_pos hg]
      exact ⟨rfl, rfl, by intro ev h; simp at h⟩
    · rw [if_neg hg, runJobs_noKey env m hk]
      refine ⟨rfl, rfl, ?_⟩
      intro ev h
      simp at h
      exact h.2

/-! ## C2: URL reconstruction -/

/-- C2 counterexample: the claim says URL reconstruction re-emits the
fetch's full parameter set, `json_mode` and `enable_translation`
included, so the URL for identifier "12345" would contain them; in the
code `generate_job_url` omits both keys, so the produced URL for
"12345" carries no `json_mode` and no `enable_translation` parameter
even though both belong to the fetch query (the full URL string,
visibly lacking both, is pinned down in the amended theorem). -/
theorem url_missing_fetch_params_cex :
    ("json_mode", "read_only") ∈ fetchParams ∧
    ("enable_translation", "False") ∈ fetchParams ∧
    (∀ kv ∈ url_params "12345", kv.1 ≠ "json_mode" ∧ kv.1 ≠ "enable_translation") := by
  refine ⟨by decide, by decide, by decide⟩

/-- C2 amended: URL reconstruction re-emits the fetch's query
parameters except `json_mode` and `enable_translation`, in the fetch's
order, with `page` fixed at 1 and `currentJobId=<identifier>` appended
after `postdate`; for identifier "12345" the produced URL is exactly
the seven retained fixed parameters plus `currentJobId=12345`. -/
theorem url_reconstruction_spec (job_id : String) :
    url_params job_id =
      ((fetchParams.filter
          (fun kv => !(kv.1 == "json_mode") && !(kv.1 == "enable_translation"))).map
        (fun kv => if kv.1 == "page" then (kv.1, "1") else kv)) ++
        [("currentJobId", job_id)] ∧
    generate_job_url "12345" =
      "https://northeastern-csm.symplicity.com/students/app/jobs/search?perPage=100&page=1&sort=!postdate&ocr=f&job_type=5&industry=112,147,24,109,83,116,141,142,143,89,105,104,97&postdate=7&currentJobId=12345" := by
  exact ⟨rfl, rfl⟩

/-! ## C4: fetch error handling -/

/-- The set of transport outcomes the claim asserts must yield the
no-result signal, modelled from the claim's own wording for comparison:
connection failure, non-2xx status, or malformed response body. -/
def specFailureOutcome : Transport → Bool
  | .connFail => true
  | .response _ .malformed => true
  | .response status _ => !(decide (200 ≤ status) && decide (status < 300))

/-- C4 counterexample: a response with the non-2xx status 300 and a
well-formed JSON object body is a failure outcome under the claim's
wording, yet `fetch_jobs` returns the parsed body, not the no-result
signal, because `raise_for_status` only raises for 4xx/5xx. -/
theorem non2xx_with_body_returns_parsed_cex :
    specFailureOutcome (.response 300 (.obj oneJob)) = true ∧
    fetch_jobs (.response 300 (.obj oneJob)) = .ok (some oneJob) ∧
    fetch_jobs (.response 300 (.obj oneJob)) ≠ .ok none := by
  refine ⟨by decide, rfl, ?_⟩
  intro h
  rw [show fetch_jobs (.response 300 (.obj oneJob)) = .ok (some oneJob) from rfl] at h
  simp at h

/-- C4 amended: connection failures, 4xx/5xx statuses, and malformed
(unparseable) bodies all make `fetch_jobs` return the no-result signal
`None` with no exception propagating (the two `except` clauses cover
`RequestException` and `JSONDecodeError`); on any other status a
well-formed JSON object body is returned parsed. -/
theorem transport_failures_return_none :
    fetch_jobs .connFail = .ok none ∧
    (∀ status body, 400 ≤ status → status < 600 →
      fetch_jobs (.response status body) = .ok none) ∧
    (∀ status, ¬(400 ≤ status ∧ status < 600) →
      fetch_jobs (.response status .malformed) = .ok none) ∧
    (∀ status d, ¬(400 ≤ status ∧ status < 600) →
      fetch_jobs (.response status (.obj d)) = .ok (some d)) := by
  refine ⟨rfl, ?_, ?_, ?_⟩
  · intro status body h1 h2
    simp only [fetch_jobs]
    rw [if_pos ⟨h1, h2⟩]
  · intro status h
    simp only [fetch_jobs]
    rw [if_neg h]
  · intro status d h
    simp only [fetch_jobs]
    rw [if_neg h]

/-- Witness for C4's amended theorem at concrete statuses. -/
theorem transport_failures_return_none_wit :
    fetch_jobs (.response 404 .malformed) = .ok none ∧
    fetch_jobs (.response 500 (.obj oneJob)) = .ok none ∧
    fetch_jobs (.response 200 .malformed) = .ok none ∧
    fetch_jobs (.response 200 (.obj oneJob)) = .ok (some oneJob) :=
  ⟨transport_failures_return_none.2.1 404 .malformed (by omega) (by omega),
   transport_failures_return_none.2.1 500 (.obj oneJob) (by omega) (by omega),
   transport_failures_return_none.2.2.1 200 (by omega),
   transport_failures_return_none.2.2.2 200 oneJob (by omega)⟩

/-! ## C6, C7, C8, C9, C10: the scoring loop -/

/-- C6: with the default minimum score 50, a job whose scorer reply is
a (trimmed) non-negative integer string is accepted exactly when the
integer meets or exceeds 50; on acceptance the `ScoredJob` is appended
and the file is immediately rewritten with the extended list. -/
theorem digit_reply_threshold_decides (env : Env) (job : JobRecord)
    (gj : List ScoredJob) (s : String)
    (hkey : keyPresent env.openai_api_key = true)
    (htrim : pyStrip s = s) (hdig : pyIsDigit s = true) :
    (50 ≤ pyInt s →
      processJob env (.reply s) job 50 gj =
        (gj ++ [mkScoredJob job s], some (gj ++ [mkScoredJob job s]), .added s)) ∧
    (pyInt s < 50 →
      processJob env (.reply s) job 50 gj = (gj, none, .skipped s)) := by
  have h := processJob_reply_eval env job gj 50 s hkey htrim (pyIsDigit_ne_empty hdig)
  constructor
  · intro hge
    rw [h, if_pos hdig, if_pos hge]
  · intro hlt
    rw [h, if_pos hdig, if_neg (by omega)]

/-- Witness for C6 at the claim's replies "100", "49", "0". -/
theorem digit_reply_threshold_decides_wit :
    processJob envOK (.reply "100") jobA 50 [] =
      ([mkScoredJob jobA "100"], some [mkScoredJob jobA "100"], .added "100") ∧
    processJob envOK (.reply "49") jobA 50 [] = ([], none, .skipped "49") ∧
    processJob envOK (.reply "0") jobA 50 [] = ([], none, .skipped "0") :=
  ⟨(digit_reply_threshold_decides envOK jobA [] "100" (by decide) (by decide)
      (by decide)).1 (by decide),
   (digit_reply_threshold_decides envOK jobA [] "49" (by decide) (by decide)
      (by decide)).2 (by decide),
   (digit_reply_threshold_decides envOK jobA [] "0" (by decide) (by decide)
      (by decide)).2 (by decide)⟩

/-- C7 counterexample: the claim as stated fails on a whitespace-only
reply.  Its trimmed text is the empty string, which is not a
non-negative integer string, yet the driver does not log it as invalid:
the guard `score_str.strip() if score_str else "0"` converts it to "0",
which passes `isdigit` and takes the numeric skipped branch — the job
is treated exactly as score zero, indistinguishable from a genuine low
score. -/
theorem whitespace_reply_treated_as_zero_cex :
    pyIsDigit (pyStrip " ") = false ∧
    processJob envOK (.reply " ") jobA 50 [] = ([], none, .skipped "0") ∧
    (∀ u, JobEvent.skipped "0" ≠ JobEvent.invalid u) := by
  refine ⟨by decide, rfl, ?_⟩
  intro u hcon
  exact JobEvent.noConfusion hcon

/-- C7 amended: every scorer reply whose trimmed text is nonempty and
not a non-negative integer string is logged as invalid and the job is
not accepted — an event distinct from every numeric-score `skipped`
event — and the loop continues with the remaining jobs untouched; a
reply that trims to the empty string is instead converted to "0" and
rejected through the numeric branch, treated as score zero. -/
theorem nonnumeric_reply_rejected (env : Env) (job : JobRecord) (m : Nat)
    (gj : List ScoredJob) (rest : List (JobRecord × CallOutcome)) (s : String)
    (hkey : keyPresent env.openai_api_key = true)
    (htrim : pyStrip s = s) (hne : s.data.isEmpty = false)
    (hdig : pyIsDigit s = false) :
    processJob env (.reply s) job m gj = (gj, none, .invalid s) ∧
    (∀ u v, JobEvent.invalid u ≠ JobEvent.skipped v) ∧
    runJobs env m ((job, .reply s) :: rest) gj =
      ((runJobs env m rest gj).1, (runJobs env m rest gj).2.1,
        .invalid s :: (runJobs env m rest gj).2.2) := by
  have h := processJob_reply_eval env job gj m s hkey htrim hne
  have h1 : processJob env (.reply s) job m gj = (gj, none, .invalid s) := by
    rw [h, if_neg (by simp [hdig])]
  refine ⟨h1, ?_, ?_⟩
  · intro u v hcon
    exact JobEvent.noConfusion hcon
  · rw [runJobs_cons_eq env m job (.reply s) rest gj none (.invalid s) gj h1]
    rfl

/-- Witness for C7 amended at the reply "N/A". -/
theorem nonnumeric_reply_rejected_wit :
    processJob envOK (.reply "N/A") jobA 50 [] = ([], none, .invalid "N/A") :=
  (nonnumeric_reply_rejected envOK jobA 50 [] [] "N/A" (by decide) (by decide)
    (by decide) (by decide)).1

/-- C8: an exception raised by the underlying scoring call is caught by
`score_job` and converted to the string "0"; under the default
threshold the job is therefore rejected (a numeric `skipped "0"`), and
the loop processes the remaining jobs exactly as it would have. -/
theorem scoring_exception_becomes_zero (env : Env) (job : JobRecord)
    (gj : List ScoredJob) (rest : List (JobRecord × CallOutcome))
    (hkey : keyPresent env.openai_api_key = true) :
    score_job .exc = "0" ∧
    processJob env .exc job 50 gj = (gj, none, .skipped "0") ∧
    runJobs env 50 ((job, .exc) :: rest) gj =
      ((runJobs env 50 rest gj).1, (runJobs env 50 rest gj).2.1,
        .skipped "0" :: (runJobs env 50 rest gj).2.2) := by
  have h1 : getJobScore env .exc = .ok "0" := by
    unfold getJobScore jobScorerInit score_job
    rw [hkey]
    rfl
  have h2 : processJob env .exc job 50 gj = (gj, none, .skipped "0") := by
    unfold processJob
    rw [h1]
    rfl
  refine ⟨rfl, h2, ?_⟩
  rw [runJobs_cons_eq env 50 job .exc rest gj none (.skipped "0") gj h2]
  rfl

/-- Witness for C8 at a concrete environment and job. -/
theorem scoring_exception_becomes_zero_wit :
    score_job .exc = "0" ∧
    processJob envOK .exc jobA 50 [] = ([], none, .skipped "0") :=
  ⟨(scoring_exception_becomes_zero envOK jobA [] [] (by decide)).1,
   (scoring_exception_becomes_zero envOK jobA [] [] (by decide)).2.1⟩

/-- C9: a record missing title, company, or description gets the
placeholders "Unknown Title" / "Unknown Company" / empty description:
it behaves in the loop exactly like a record carrying the placeholders
explicitly, and a concrete such record is scored and accepted like any
other. -/
theorem missing_fields_get_placeholders (env : Env) (oc : CallOutcome) (m : Nat)
    (gj : List ScoredJob) (jid : Option String) :
    (∀ s, mkScoredJob ⟨none, none, none, jid⟩ s =
      ⟨"Unknown Title", "Unknown Company", s, generate_job_url (jid.getD "")⟩) ∧
    processJob env oc ⟨none, none, none, jid⟩ m gj =
      processJob env oc ⟨some "Unknown Title", some "Unknown Company", some "", jid⟩ m gj ∧
    processJob envOK (.reply "80") ⟨none, none, none, some "12345"⟩ 50 [] =
      ([⟨"Unknown Title", "Unknown Company", "80", generate_job_url "12345"⟩],
       some [⟨"Unknown Title", "Unknown Company", "80", generate_job_url "12345"⟩],
       .added "80") := by
  refine ⟨fun s => rfl, ?_, ?_⟩
  · unfold processJob
    cases getJobScore env oc with
    | error e => rfl
    | ok raw => rfl
  · rfl

/-- C10: a digit-string reply denoting an integer above 100 still
passes validation and the threshold check, the job is accepted, and the
out-of-range score string is stored in the `ScoredJob` unchanged. -/
theorem overrange_score_still_accepted (env : Env) (job : JobRecord)
    (gj : List ScoredJob) (s : String)
    (hkey : keyPresent env.openai_api_key = true) (htrim : pyStrip s = s)
    (hdig : pyIsDigit s = true) (hover : 100 < pyInt s) :
    processJob env (.reply s) job 50 gj =
      (gj ++ [mkScoredJob job s], some (gj ++ [mkScoredJob job s]), .added s) ∧
    (mkScoredJob job s).score = s := by
  have h := processJob_reply_eval env job gj 50 s hkey htrim (pyIsDigit_ne_empty hdig)
  exact ⟨by rw [h, if_pos hdig, if_pos (by omega)], rfl⟩

/-- Witness for C10 at the reply "150". -/
theorem overrange_score_still_accepted_wit :
    pyIsDigit "150" = true ∧ 100 < pyInt "150" ∧
    processJob envOK (.reply "150") jobA 50 [] =
      ([mkScoredJob jobA "150"], some [mkScoredJob jobA "150"], .added "150") :=
  ⟨by decide, by decide,
   (overrange_score_still_accepted envOK jobA [] "150" (by decide) (by decide)
     (by decide) (by decide)).1⟩

/-! ## C5: the accepted-jobs file is a monotone snapshot -/

/-- Snapshot properties of the loop started, as `process_jobs` starts
it, from an empty accepted list. -/
lemma runJobs_snapshots (env : Env) (m : Nat) (pairs : List (JobRecord × CallOutcome)) :
    (runJobs env m pairs []).2.1.length = (runJobs env m pairs []).1.length ∧
    (∀ i, i < (runJobs env m pairs []).2.1.length →
      (runJobs env m pairs []).2.1.getD i [] = (runJobs env m pairs []).1.take (i + 1) ∧
      ((runJobs env m pairs []).2.1.getD i []).length = i + 1) ∧
    (∀ i, i + 1 < (runJobs env m pairs []).2.1.length →
      ((runJobs env m pairs []).2.1.getD (i + 1) []).take (i + 1) =
        (runJobs env m pairs []).2.1.getD i []) := by
  obtain ⟨hp, hl, hw⟩ := runJobs_inv env m pairs []
  simp only [List.length_nil, Nat.zero_add] at hp hl hw
  refine ⟨hl.symm, ?_, ?_⟩
  · intro i hi
    refine ⟨hw i hi, ?_⟩
    rw [hw i hi]
    exact length_take_of_le _ (i + 1) (by omega)
  · intro i hi
    rw [hw (i + 1) hi, hw i (by omega)]
    exact take_take_le _ (i + 1) (i + 1 + 1) (by omega)

/-- C5: during a run, `process_jobs` performs one whole-file write of
the accepted list per acceptance; the `i`-th snapshot is exactly the
first `i + 1` accepted jobs in discovery order (so snapshots hold
between 1 and K entries for a run accepting K jobs), and each snapshot
begins with — hence extends — the previous one.  Each recorded write is
the complete serialized list, modelling overwrite, never append. -/
theorem goodjobs_snapshots_monotone (env : Env) (oracle : Nat → CallOutcome)
    (jobs_data : Option PyDict) (m : Nat) :
    (process_jobs env oracle jobs_data m).2.1.length =
      (process_jobs env oracle jobs_data m).1.length ∧
    (∀ i, i < (process_jobs env oracle jobs_data m).2.1.length →
      (process_jobs env oracle jobs_data m).2.1.getD i [] =
        (process_jobs env oracle jobs_data m).1.take (i + 1) ∧
      ((process_jobs env oracle jobs_data m).2.1.getD i []).length = i + 1) ∧
    (∀ i, i + 1 < (process_jobs env oracle jobs_data m).2.1.length →
      ((process_jobs env oracle jobs_data m).2.1.getD (i + 1) []).take (i + 1) =
        (process_jobs env oracle jobs_data m).2.1.getD i []) := by
  match jobs_data with
  | none =>
    refine ⟨rfl, ?_, ?_⟩ <;> intro i hi <;> simp [process_jobs] at hi
  | some d =>
    simp only [process_jobs]
    by_cases hg : (d.isEmpty || !hasModels d) = true
    · rw [if_pos hg]
      refine ⟨rfl, ?_, ?_⟩ <;> intro i hi <;> simp at hi
    · rw [if_neg hg]
      exact runJobs_snapshots env m (pairOutcomes oracle (getModels d))

/-- Witness for C5 on a concrete two-job run accepting both jobs. -/
theorem goodjobs_snapshots_monotone_wit :
    (process_jobs envOK (fun _ => .reply "80") (some twoJobs) 50).2.1.length =
      (process_jobs envOK (fun _ => .reply "80") (some twoJobs) 50).1.length ∧
    (process_jobs envOK (fun _ => .reply "80") (some twoJobs) 50).2.1.getD 1 [] =
      (process_jobs envOK (fun _ => .reply "80") (some twoJobs) 50).1.take 2 ∧
    ((process_jobs envOK (fun _ => .reply "80") (some twoJobs) 50).2.1.getD 1 []).take 1 =
      (process_jobs envOK (fun _ => .reply "80") (some twoJobs) 50).2.1.getD 0 [] :=
  ⟨(goodjobs_snapshots_monotone envOK (fun _ => .reply "80") (some twoJobs) 50).1,
   ((goodjobs_snapshots_monotone envOK (fun _ => .reply "80") (some twoJobs) 50).2.1 1
      (by decide)).1,
   (goodjobs_snapshots_monotone envOK (fun _ => .reply "80") (some twoJobs) 50).2.2 0
      (by decide)⟩

/-! ## C1, C3: driver-level behavior -/

/-- When the cookie is present, the fetch returns a parsed dict, and
that dict is truthy (non-empty), the run reaches the processing phase
and exits 0; this is the only live path of the driver. -/
lemma mainRun_live (env : Env) (t : Transport) (oracle : Nat → CallOutcome) (d : PyDict)
    (hc : keyPresent env.nuworks_cookie = true)
    (hf : fetch_jobs t = .ok (some d)) (hde : d.isEmpty = false) :
    mainRun env t oracle =
      ⟨0, some d,
       (process_jobs env oracle (some d) 50).2.1 ++ [(process_jobs env oracle (some d) 50).1],
       (process_jobs env oracle (some d) 50).1,
       (process_jobs env oracle (some d) 50).2.2⟩ := by
  unfold mainRun
  rw [if_pos hc, hf]
  simp [hde]

/-- Every run either takes an early exit with status 1 and no file
writes, or the live path of `mainRun_live`. -/
lemma mainRun_cases (env : Env) (t : Transport) (oracle : Nat → CallOutcome) :
    mainRun env t oracle = ⟨1, none, [], [], []⟩ ∨
    ∃ d, keyPresent env.nuworks_cookie = true ∧ fetch_jobs t = .ok (some d) ∧
      d.isEmpty = false ∧
      mainRun env t oracle =
        ⟨0, some d,
         (process_jobs env oracle (some d) 50).2.1 ++
           [(process_jobs env oracle (some d) 50).1],
         (process_jobs env oracle (some d) 50).1,
         (process_jobs env oracle (some d) 50).2.2⟩ := by
  by_cases hc : keyPresent env.nuworks_cookie = true
  · cases hf : fetch_jobs t with
    | error e =>
      left
      unfold mainRun
      rw [if_pos hc, hf]
    | ok od =>
      cases od with
      | none =>
        left
        unfold mainRun
        rw [if_pos hc, hf]
      | some d =>
        by_cases hd : d.isEmpty = true
        · left
          unfold mainRun
          rw [if_pos hc, hf]
          simp [hd]
        · have hde : d.isEmpty = false := by
            cases he : d.isEmpty with
            | false => rfl
            | true => exact absurd he hd
          exact Or.inr ⟨d, hc, rfl, hde, mainRun_live env t oracle d hc hf hde⟩
  · left
    unfold mainRun
    rw [if_neg hc]

/-- C3 counterexample: a successful fetch whose parsed body is the
empty JSON object is treated by `if not jobs_data` as a failure, so the
process exits 1 even though the fetch succeeded and no exception
escaped the driver. -/
theorem successful_empty_body_exits_one_cex :
    fetch_jobs (.response 200 (.obj [])) = .ok (some []) ∧
    (mainRun envOK (.response 200 (.obj [])) (fun _ => .reply "0")).exitCode = 1 := by
  exact ⟨rfl, rfl⟩

/-- C3 amended: the process exits 0 exactly when the session cookie is
present and the initial fetch succeeds with a truthy (non-empty) parsed
body; in particular a non-empty body whose `models` list is empty, or
whose jobs are all rejected, still exits 0, while a successful fetch of
an empty (falsy) body exits 1 like a fetch failure. -/
theorem exit_zero_iff_truthy_fetch (env : Env) (t : Transport)
    (oracle : Nat → CallOutcome) :
    (mainRun env t oracle).exitCode = 0 ↔
      (keyPresent env.nuworks_cookie = true ∧
        ∃ d, fetch_jobs t = .ok (some d) ∧ d ≠ []) := by
  constructor
  · intro h0
    rcases mainRun_cases env t oracle with hmain | ⟨d, hc, hf, hde, hmain⟩
    · rw [hmain] at h0
      simp at h0
    · refine ⟨hc, d, hf, ?_⟩
      intro hnil
      rw [hnil] at hde
      simp at hde
  · rintro ⟨hc, d, hf, hne⟩
    have hde : d.isEmpty = false := by
      cases d with
      | nil => exact absurd rfl hne
      | cons a l => rfl
    rw [mainRun_live env t oracle d hc hf hde]

/-- C1 counterexample: with `OPENAI_API_KEY` absent (and the cookie
present), a run over one job whose scorer would reply "100" still
completes successfully with exit status 0 — the construction error is
swallowed by the per-job handler — accepting nothing and logging one
errored job. -/
theorem missing_key_run_exits_zero_cex :
    keyPresent envNoKey.openai_api_key = false ∧
    (mainRun envNoKey (.response 200 (.obj oneJob)) (fun _ => .reply "100")).exitCode = 0 ∧
    (mainRun envNoKey (.response 200 (.obj oneJob)) (fun _ => .reply "100")).finalGoodJobs
      = [] ∧
    (mainRun envNoKey (.response 200 (.obj oneJob)) (fun _ => .reply "100")).events
      = [.errored] := by
  exact ⟨rfl, rfl, rfl, rfl⟩

/-- C1 amended: with the credential absent the scorer's construction
does raise, and no job is ever scored, accepted, or persisted; but
because the construction happens lazily inside the per-job exception
handler, every job is skipped as errored, at most an empty accepted
list is written, and a run whose fetch succeeds with a truthy body
still completes successfully with exit status 0. -/
theorem missing_key_scorer_raises_but_run_continues (env : Env) (t : Transport)
    (oracle : Nat → CallOutcome) (hk : keyPresent env.openai_api_key = false) :
    jobScorerInit env = .error .valueError ∧
    (mainRun env t oracle).finalGoodJobs = [] ∧
    (∀ ev ∈ (mainRun env t oracle).events, ev = .errored) ∧
    ((mainRun env t oracle).goodJobsWrites = [] ∨
      (mainRun env t oracle).goodJobsWrites = [[]]) ∧
    (∀ d, fetch_jobs t = .ok (some d) → d ≠ [] →
      keyPresent env.nuworks_cookie = true → (mainRun env t oracle).exitCode = 0) := by
  have hj : jobScorerInit env = .error .valueError := by
    unfold jobScorerInit
    rw [hk]
    rfl
  have hexit : ∀ d, fetch_jobs t = .ok (some d) → d ≠ [] →
      keyPresent env.nuworks_cookie = true → (mainRun env t oracle).exitCode = 0 := by
    intro d hf hne hc
    have hde : d.isEmpty = false := by
      cases d with
      | nil => exact absurd rfl hne
      | cons a l => rfl
    rw [mainRun_live env t oracle d hc hf hde]
  rcases mainRun_cases env t oracle with hmain | ⟨d, hc, hf, hde, hmain⟩
  · rw [hmain] at hexit ⊢
    refine ⟨hj, rfl, ?_, Or.inl rfl, hexit⟩
    intro ev h
    simp at h
  · obtain ⟨hgj, hws, hev⟩ := process_jobs_noKey env oracle (some d) 50 hk
    rw [hmain] at hexit ⊢
    refine ⟨hj, hgj, ?_, ?_, hexit⟩
    · intro ev h
      exact hev ev h
    · right
      rw [hws, hgj]
      rfl

/-- Witness for C1's amended theorem at a concrete no-key run. -/
theorem missing_key_scorer_raises_but_run_continues_wit :
    jobScorerInit envNoKey = .error .valueError ∧
    (mainRun envNoKey (.response 201 (.obj twoJobs)) (fun _ => .reply "99")).finalGoodJobs
      = [] :=
  ⟨(missing_key_scorer_raises_but_run_continues envNoKey (.response 201 (.obj twoJobs))
      (fun _ => .reply "99") (by decide)).1,
   (missing_key_scorer_raises_but_run_continues envNoKey (.response 201 (.obj twoJobs))
      (fun _ => .reply "99") (by decide)).2.1⟩
